import Mathlib

/-!
Shallow embedding of the Game-of-Life / screen-cycling core of
`src/life_matrix.cpp` (ESPHome component `LifeMatrix`), together with
theorems checking the natural-language specification against it.

Modelling conventions:
* the cell grid `std::array<uint8_t, GRID_SIZE>` is a `List Nat` laid out
  row-major (`index = y * w + x`); `uint8_t` ages stay below 256 because the
  code saturates with `std::min(255, age + 1)`;
* `millis()` timestamps are `Nat` milliseconds passed in explicitly;
* `std::rand() % 100` draws are an oracle `rnd : Nat → Nat` indexed by the
  order in which the C++ loops consume them (one draw per cell, row-major);
* sensor publishing (`publish_state`) is modelled as the second component of
  the step function: `some (generation, population)` when the code reaches
  the publish calls, `none` otherwise;
* C++ `int` coordinates that may go negative (`set_cell` / `get_cell` /
  `place_pattern` arguments) are `Int`.
-/

/-- `(b)` as the 0/1 summand the C++ code gets from adding booleans. -/
def b2n (p : Prop) [Decidable p] : Nat := if p then 1 else 0

/-- Embeds `LifeMatrix::get_cell` (life_matrix.cpp:83-88): bounds-checked
read, returning 0 outside the grid. -/
def get_cell (w h : Nat) (g : List Nat) (x y : Int) : Nat :=
  if x < 0 ∨ (w : Int) ≤ x ∨ y < 0 ∨ (h : Int) ≤ y then 0
  else g.getD (y.toNat * w + x.toNat) 0

/-- Embeds `LifeMatrix::set_cell` (life_matrix.cpp:90-95): bounds-checked
write, no-op outside the grid. -/
def set_cell (w h : Nat) (g : List Nat) (x y : Int) (v : Nat) : List Nat :=
  if x < 0 ∨ (w : Int) ≤ x ∨ y < 0 ∨ (h : Int) ≤ y then g
  else g.set (y.toNat * w + x.toNat) v

/-- The inlined toroidal neighbor count of `update_game_of_life`
(life_matrix.cpp:259-271): precomputed wrapped row offsets and wrapped
left/right columns, summing `src[...] > 0` over the 8 neighbors. -/
def nbCount (w h : Nat) (g : List Nat) (x y : Nat) : Nat :=
  let row_above := (if y = 0 then h - 1 else y - 1) * w
  let row_cur := y * w
  let row_below := (if y = h - 1 then 0 else y + 1) * w
  let xl := if x = 0 then w - 1 else x - 1
  let xr := if x = w - 1 then 0 else x + 1
  b2n (0 < g.getD (row_above + xl) 0) + b2n (0 < g.getD (row_above + x) 0) +
    b2n (0 < g.getD (row_above + xr) 0) +
    b2n (0 < g.getD (row_cur + xl) 0) + b2n (0 < g.getD (row_cur + xr) 0) +
    b2n (0 < g.getD (row_below + xl) 0) + b2n (0 < g.getD (row_below + x) 0) +
    b2n (0 < g.getD (row_below + xr) 0)

/-- `next_alive` of one cell (life_matrix.cpp:273-283): survival on 2 or 3
neighbors for a live cell, birth on exactly 3 for a dead cell. -/
def cellNextAlive (w h : Nat) (g : List Nat) (x y : Nat) : Bool :=
  let neighbors := nbCount w h g x y
  let current_age := g.getD (y * w + x) 0
  if 0 < current_age then (neighbors == 2 || neighbors == 3) else (neighbors == 3)

/-- `next_age` of one cell (life_matrix.cpp:285-290):
`(current_age == 0) ? 1 : std::min(255, current_age + 1)` when alive next
generation, 0 otherwise. -/
def cellNextAge (w h : Nat) (g : List Nat) (x y : Nat) : Nat :=
  if cellNextAlive w h g x y then
    (if g.getD (y * w + x) 0 = 0 then 1 else min 255 (g.getD (y * w + x) 0 + 1))
  else 0

/-- The next-generation grid written into the back buffer by the double loop
of `update_game_of_life` (life_matrix.cpp:255-294); cell `i` is `(x, y) =
(i % w, i / w)` so the write index `row_cur + x` is `i` itself. -/
def golStepGrid (w h : Nat) (g : List Nat) : List Nat :=
  (List.range (h * w)).map (fun i => cellNextAge w h g (i % w) (i / w))

/-- `game_births_` accumulated during one step (life_matrix.cpp:280-283):
dead cells that come alive. -/
def golStepBirths (w h : Nat) (g : List Nat) : Nat :=
  (List.range (h * w)).countP
    (fun i => decide (g.getD i 0 = 0 ∧ cellNextAlive w h g (i % w) (i / w) = true))

/-- `game_deaths_` accumulated during one step (life_matrix.cpp:277-279):
live cells that die. -/
def golStepDeaths (w h : Nat) (g : List Nat) : Nat :=
  (List.range (h * w)).countP
    (fun i => decide (0 < g.getD i 0 ∧ ¬ cellNextAlive w h g (i % w) (i / w) = true))

/-- The `population` counter accumulated during one step
(life_matrix.cpp:286-290): cells alive in the next generation. -/
def golStepPopulation (w h : Nat) (g : List Nat) : Nat :=
  (List.range (h * w)).countP (fun i => cellNextAlive w h g (i % w) (i / w))

/-- The `max_age` counter of one step (life_matrix.cpp:246,288): maximum of
the next ages (0 when nothing is alive). -/
def golStepMaxAge (w h : Nat) (g : List Nat) : Nat :=
  (golStepGrid w h g).foldl max 0

/-- Embeds `GameOfLifeConfig` (life_matrix.h:188-194). -/
structure GolConfig where
  update_interval_ms : Nat
  complex_patterns : Bool
  auto_reset_on_stable : Bool
  stability_timeout_ms : Nat
  demo_mode_enabled : Bool

/-- The Game-of-Life fields of `LifeMatrix` (life_matrix.h:428-449). -/
structure GolState where
  game_grid : List Nat
  game_grid_back : List Nat
  game_initialized : Bool
  game_last_update : Nat
  game_start_time : Nat
  game_generation : Nat
  game_last_max_age : Nat
  population_history : List Nat
  history_idx : Nat
  history_filled : Bool
  game_births : Nat
  game_deaths : Nat
  game_stable_since : Nat
  game_stable_paused_elapsed : Nat
  game_is_stable : Bool
  game_demo_mode : Bool
  game_demo_start_time : Nat
  game_reset_animation : Bool
  game_reset_animation_start : Nat

/-- Embeds `LifeMatrix::is_stable` (life_matrix.cpp:365-376): false until
`history_filled_`, then true iff the 29 later samples equal sample 0. -/
def is_stable (s : GolState) : Bool :=
  if s.history_filled = false then false
  else (List.range 29).all
    (fun i => s.population_history.getD (i + 1) 0 == s.population_history.getD 0 0)

/-- Embeds `LifeMatrix::get_population` (life_matrix.cpp:378-384): count of
grid cells with age > 0. -/
def get_population (g : List Nat) : Nat :=
  g.countP (fun a => decide (0 < a))

/-- Embeds `LifeMatrix::reset_game_of_life` (life_matrix.cpp:341-356):
starts the reset animation and demo mode, clears stability state, does NOT
reseed the grid. -/
def reset_game_of_life (now : Nat) (s : GolState) : GolState :=
  { s with
    game_reset_animation := true
    game_reset_animation_start := now
    game_demo_mode := true
    game_demo_start_time := now
    game_is_stable := false
    game_stable_since := 0
    game_stable_paused_elapsed := 0 }

/-- Embeds `LifeMatrix::update_game_of_life` (life_matrix.cpp:229-339).
Returns the new state and `some (generation, population)` exactly when the
code reaches the `publish_state` calls on the final-generation /
final-population sensors, else `none`. -/
def update_game_of_life (cfg : GolConfig) (w h now : Nat) (s : GolState) :
    GolState × Option (Nat × Nat) :=
  if now - s.game_last_update < cfg.update_interval_ms then (s, none)
  else
    let population := golStepPopulation w h s.game_grid
    let s1 : GolState :=
      { s with
        game_last_update := now
        game_grid := golStepGrid w h s.game_grid
        game_grid_back := s.game_grid
        game_births := golStepBirths w h s.game_grid
        game_deaths := golStepDeaths w h s.game_grid
        game_last_max_age := golStepMaxAge w h s.game_grid
        game_generation := s.game_generation + 1
        population_history := s.population_history.set s.history_idx population
        history_idx := (s.history_idx + 1) % 30
        history_filled :=
          if s.history_filled = false ∧ (s.history_idx + 1) % 30 = 0 then true
          else s.history_filled }
    if population = 0 then
      (reset_game_of_life now s1, none)
    else if population < 58 ∧ cfg.auto_reset_on_stable = true then
      if s1.game_is_stable = false then
        ({ s1 with game_is_stable := true, game_stable_since := now },
         some (s1.game_generation, population))
      else (s1, none)
    else if is_stable s1 = true then
      if s1.game_is_stable = false then
        ({ s1 with game_is_stable := true, game_stable_since := now },
         some (s1.game_generation, population))
      else (s1, none)
    else
      ({ s1 with game_is_stable := false }, none)

/-- Pattern enumerants (life_matrix.h:166-173). -/
inductive PatternType where
  | PATTERN_RANDOM
  | PATTERN_R_PENTOMINO
  | PATTERN_ACORN
  | PATTERN_GLIDER
  | PATTERN_DIEHARD
  | PATTERN_MIXED
deriving DecidableEq

open PatternType

/-- Embeds `LifeMatrix::place_pattern` (life_matrix.cpp:121-178): fixed
relative-offset writes per pattern; default case places nothing. -/
def place_pattern (w h : Nat) (x y : Int) (pattern : PatternType) (g : List Nat) :
    List Nat :=
  match pattern with
  | PATTERN_R_PENTOMINO =>
    set_cell w h (set_cell w h (set_cell w h (set_cell w h (set_cell w h g
      (x + 1) y 1) (x + 2) y 1) x (y + 1) 1) (x + 1) (y + 1) 1) (x + 1) (y + 2) 1
  | PATTERN_ACORN =>
    set_cell w h (set_cell w h (set_cell w h (set_cell w h (set_cell w h
      (set_cell w h (set_cell w h g
      (x + 1) y 1) (x + 3) (y + 1) 1) x (y + 2) 1) (x + 1) (y + 2) 1)
      (x + 4) (y + 2) 1) (x + 5) (y + 2) 1) (x + 6) (y + 2) 1
  | PATTERN_GLIDER =>
    set_cell w h (set_cell w h (set_cell w h (set_cell w h (set_cell w h g
      (x + 1) y 1) (x + 2) (y + 1) 1) x (y + 2) 1) (x + 1) (y + 2) 1)
      (x + 2) (y + 2) 1
  | PATTERN_DIEHARD =>
    set_cell w h (set_cell w h (set_cell w h (set_cell w h (set_cell w h
      (set_cell w h (set_cell w h g
      (x + 6) y 1) x (y + 1) 1) (x + 1) (y + 1) 1) (x + 1) (y + 2) 1)
      (x + 5) (y + 2) 1) (x + 6) (y + 2) 1) (x + 7) (y + 2) 1
  | _ => g

/-- Embeds `LifeMatrix::randomize_cells` (life_matrix.cpp:180-188): row-major
sweep setting a cell to 1 when its random draw `% 100` is below the density;
`rnd` is the per-cell draw oracle for `std::rand()`. -/
def randomize_cells (rnd : Nat → Nat) (density w h : Nat) (g : List Nat) : List Nat :=
  (List.range h).foldl
    (fun gy y =>
      (List.range w).foldl
        (fun gx x =>
          if rnd (y * w + x) % 100 < density then set_cell w h gx (x : Int) (y : Int) 1
          else gx)
        gy)
    g

/-- The MIXED seeding body of `initialize_game_of_life`
(life_matrix.cpp:196-208): three methuselahs and three gliders at fixed
offsets, then 10% random noise. -/
def mixedSeed (rnd : Nat → Nat) (w h : Nat) (g : List Nat) : List Nat :=
  randomize_cells rnd 10 w h
    (place_pattern w h 8 100 PATTERN_GLIDER
      (place_pattern w h 20 30 PATTERN_GLIDER
        (place_pattern w h 3 10 PATTERN_GLIDER
          (place_pattern w h 15 85 PATTERN_DIEHARD
            (place_pattern w h 10 50 PATTERN_ACORN
              (place_pattern w h 5 15 PATTERN_R_PENTOMINO g))))))

/-- Embeds `LifeMatrix::initialize_game_of_life` (life_matrix.cpp:190-227);
named `init_game_of_life` here. Clears the grid, seeds it by pattern, then
resets generation / history / stability bookkeeping. -/
def init_game_of_life (cfg : GolConfig) (rnd : Nat → Nat) (w h now : Nat)
    (pattern : PatternType) (s : GolState) : GolState :=
  let g0 : List Nat := List.replicate (w * h) 0
  let g :=
    if pattern = PATTERN_MIXED ∧ cfg.complex_patterns = true then
      mixedSeed rnd w h g0
    else if pattern = PATTERN_RANDOM then
      randomize_cells rnd 30 w h g0
    else
      place_pattern w h ((w : Int) / 2 - 3) ((h : Int) / 2 - 3) pattern g0
  { s with
    game_grid := g
    game_initialized := true
    game_generation := 0
    game_last_update := now
    game_start_time := now
    population_history := List.replicate 30 0
    history_idx := 0
    history_filled := false
    game_is_stable := false
    game_stable_since := 0
    game_stable_paused_elapsed := 0 }

/-- The GoL-visibility transition block of `LifeMatrix::loop`
(life_matrix.cpp:41-56): on hide while stable, capture the elapsed countdown
into `game_stable_paused_elapsed_`; on reveal while stable, restore
`game_stable_since_` from it. Returns the state and the new
`gol_was_visible_`. -/
def visibility_update (now : Nat) (gol_visible : Bool) (s : GolState)
    (gol_was_visible : Bool) : GolState × Bool :=
  if gol_visible ≠ gol_was_visible then
    let s' :=
      if gol_visible = false ∧ gol_was_visible = true then
        (if s.game_is_stable = true ∧ 0 < s.game_stable_since then
          { s with game_stable_paused_elapsed := now - s.game_stable_since }
        else s)
      else if gol_visible = true ∧ gol_was_visible = false then
        (if s.game_is_stable = true ∧ 0 < s.game_stable_paused_elapsed then
          { s with game_stable_since := now - s.game_stable_paused_elapsed }
        else s)
      else s
    (s', gol_visible)
  else (s, gol_was_visible)

/-- UI modes (life_matrix.h:27-31). -/
inductive UIMode where
  | AUTO_CYCLE
  | MANUAL_BROWSE
  | SETTINGS
deriving DecidableEq

open UIMode

/-- Screen id of the automaton screen (life_matrix.h:34-42). -/
def SCREEN_GAME_OF_LIFE : Int := 6

/-- The screen-cycling / UI fields of `LifeMatrix` (life_matrix.h:451-456 and
the screen-management fields). `screen_cycle_ms` models the millisecond dwell
`(unsigned long)(screen_cycle_time_ * 1000.0f)` already converted. -/
structure UiState where
  ui_mode : UIMode
  ui_last_input_ms : Nat
  ui_paused : Bool
  settings_cursor : Nat
  enabled_screen_ids : List Int
  current_screen_idx : Int
  last_switch_time : Nat
  screen_cycle_ms : Nat

/-- Embeds `LifeMatrix::get_current_screen_id` (life_matrix.cpp:957-962):
sentinel -1 when the enabled list is empty or the index is out of range. -/
def get_current_screen_id (ui : UiState) : Int :=
  if ui.enabled_screen_ids = [] ∨ ui.current_screen_idx < 0 ∨
      (ui.enabled_screen_ids.length : Int) ≤ ui.current_screen_idx then -1
  else ui.enabled_screen_ids.getD ui.current_screen_idx.toNat 0

/-- Embeds `LifeMatrix::handle_input` (life_matrix.cpp:420-422). -/
def handle_input (now : Nat) (ui : UiState) : UiState :=
  { ui with ui_last_input_ms := now }

/-- Embeds `LifeMatrix::set_ui_mode` (life_matrix.cpp:390-403): on a mode
change, record the input time and, when entering AUTO_CYCLE or SETTINGS,
reset the auto-cycle timer. (`update_status_led` only drives the LED and is
not modelled.) -/
def set_ui_mode (now : Nat) (mode : UIMode) (ui : UiState) : UiState :=
  if ui.ui_mode ≠ mode then
    let ui1 := handle_input now { ui with ui_mode := mode }
    if mode = AUTO_CYCLE ∨ mode = SETTINGS then { ui1 with last_switch_time := now }
    else ui1
  else ui

/-- Embeds `LifeMatrix::update_screen_cycle` (life_matrix.cpp:894-915):
auto-advance gated on AUTO_CYCLE, not paused, non-empty list, not the GoL
screen in demo/reset animation, and the dwell time having elapsed. -/
def update_screen_cycle (now : Nat) (game_demo_mode game_reset_animation : Bool)
    (ui : UiState) : UiState :=
  if ui.ui_mode ≠ AUTO_CYCLE ∨ ui.ui_paused = true ∨ ui.enabled_screen_ids = [] then ui
  else if get_current_screen_id ui = SCREEN_GAME_OF_LIFE ∧
      (game_demo_mode = true ∨ game_reset_animation = true) then ui
  else if ui.screen_cycle_ms ≤ now - ui.last_switch_time then
    { ui with
      current_screen_idx :=
        (ui.current_screen_idx + 1) % (ui.enabled_screen_ids.length : Int)
      last_switch_time := now }
  else ui

/-- Embeds `LifeMatrix::next_screen` (life_matrix.cpp:917-929): no-op when no
screen is enabled, otherwise forces MANUAL_BROWSE and advances the index. -/
def next_screen (now : Nat) (ui : UiState) : UiState :=
  if ui.enabled_screen_ids = [] then ui
  else
    let ui1 := set_ui_mode now MANUAL_BROWSE (handle_input now ui)
    { ui1 with
      current_screen_idx :=
        (ui1.current_screen_idx + 1) % (ui1.enabled_screen_ids.length : Int)
      last_switch_time := now }

/-- Embeds `LifeMatrix::prev_screen` (life_matrix.cpp:931-946). -/
def prev_screen (now : Nat) (ui : UiState) : UiState :=
  if ui.enabled_screen_ids = [] then ui
  else
    let ui1 := set_ui_mode now MANUAL_BROWSE (handle_input now ui)
    let idx := ui1.current_screen_idx - 1
    { ui1 with
      current_screen_idx :=
        if idx < 0 then (ui1.enabled_screen_ids.length : Int) - 1 else idx
      last_switch_time := now }

/-- Embeds `LifeMatrix::set_current_screen` (life_matrix.cpp:948-955): no-op
on an empty list or a negative index. -/
def set_current_screen (now : Nat) (screen_idx : Int) (ui : UiState) : UiState :=
  if ui.enabled_screen_ids = [] ∨ screen_idx < 0 then ui
  else
    { ui with
      current_screen_idx := screen_idx % (ui.enabled_screen_ids.length : Int)
      last_switch_time := now }

/-! ### Generic helper lemmas -/

theorem getD_map_range (n i : Nat) (f : Nat → Nat) (hi : i < n) :
    ((List.range n).map f).getD i 0 = f i := by
  rw [List.getD_eq_getElem?_getD, List.getElem?_map, List.getElem?_range hi]
  rfl

theorem countP_eq_range_countP (p : Nat → Bool) (l : List Nat) :
    l.countP p = (List.range l.length).countP (fun i => p (l.getD i 0)) := by
  induction l with
  | nil => simp
  | cons a t ih =>
    rw [List.countP_cons, List.length_cons, List.range_succ_eq_map,
      List.countP_cons, List.countP_map]
    have hc : List.countP ((fun i => p ((a :: t).getD i 0)) ∘ (· + 1))
          (List.range t.length)
        = List.countP (fun i => p (t.getD i 0)) (List.range t.length) :=
      List.countP_congr (by intro x hx; simp [Function.comp])
    rw [hc, ← ih]
    simp

theorem countP_add_countP_eq (l : List Nat) (p q r u : Nat → Bool)
    (hpt : ∀ a, ((if p a then 1 else 0) + (if q a then 1 else 0) : Nat) =
      (if r a then 1 else 0) + (if u a then 1 else 0)) :
    l.countP p + l.countP q = l.countP r + l.countP u := by
  induction l with
  | nil => simp
  | cons a t ih =>
    simp only [List.countP_cons]
    have h := hpt a
    cases hp : p a <;> cases hq : q a <;> cases hr : r a <;> cases hu : u a <;>
      simp [hp, hq, hr, hu] at h ⊢ <;> omega

/-! ### Toroidal index arithmetic -/

/-- Wrapping an integer coordinate onto `[0, n)` by the mathematical modulus;
used by the specification-side neighbor count. -/
def torIdx (n : Nat) (i : Int) : Nat := (i % (n : Int)).toNat

theorem neg_one_emod_coe (n : Nat) (hn : 0 < n) :
    (-1 : Int) % (n : Int) = (n : Int) - 1 := by
  have h1 : ((n : Int) - 1 + (n : Int) * (-1)) % (n : Int) = ((n : Int) - 1) % (n : Int) :=
    Int.add_mul_emod_self_left ((n : Int) - 1) (n : Int) (-1)
  have h2 : ((n : Int) - 1 + (n : Int) * (-1)) = -1 := by ring
  rw [h2] at h1
  rw [h1, Int.emod_eq_of_lt (by omega) (by omega)]

theorem torIdx_self (n x : Nat) (hx : x < n) : torIdx n (x : Int) = x := by
  unfold torIdx
  rw [Int.emod_eq_of_lt (by omega) (by omega)]
  omega

theorem torIdx_sub_one (n x : Nat) (hx : x < n) :
    torIdx n ((x : Int) - 1) = if x = 0 then n - 1 else x - 1 := by
  have hn : 0 < n := by omega
  unfold torIdx
  by_cases h0 : x = 0
  · subst h0
    rw [if_pos rfl]
    have h1 : ((0 : Nat) : Int) - 1 = -1 := by ring
    rw [h1, neg_one_emod_coe n hn]
    omega
  · rw [if_neg h0, Int.emod_eq_of_lt (by omega) (by omega)]
    omega

theorem torIdx_add_one (n x : Nat) (hx : x < n) :
    torIdx n ((x : Int) + 1) = if x = n - 1 then 0 else x + 1 := by
  unfold torIdx
  by_cases h0 : x = n - 1
  · rw [if_pos h0]
    have h1 : ((x : Int) + 1) = (n : Int) := by omega
    rw [h1, Int.emod_self]
    rfl
  · rw [if_neg h0, Int.emod_eq_of_lt (by omega) (by omega)]
    omega

/-- Modelled from the claim wording (spec §4.1 step rule): the cell's
8-neighbor count, wrapping both axes toroidally with the mathematical
modulus, over cells with age > 0. -/
def specNeighborCount (w h : Nat) (g : List Nat) (x y : Nat) : Nat :=
  b2n (0 < g.getD (torIdx h ((y : Int) - 1) * w + torIdx w ((x : Int) - 1)) 0) +
    b2n (0 < g.getD (torIdx h ((y : Int) - 1) * w + torIdx w (x : Int)) 0) +
    b2n (0 < g.getD (torIdx h ((y : Int) - 1) * w + torIdx w ((x : Int) + 1)) 0) +
    b2n (0 < g.getD (torIdx h (y : Int) * w + torIdx w ((x : Int) - 1)) 0) +
    b2n (0 < g.getD (torIdx h (y : Int) * w + torIdx w ((x : Int) + 1)) 0) +
    b2n (0 < g.getD (torIdx h ((y : Int) + 1) * w + torIdx w ((x : Int) - 1)) 0) +
    b2n (0 < g.getD (torIdx h ((y : Int) + 1) * w + torIdx w (x : Int)) 0) +
    b2n (0 < g.getD (torIdx h ((y : Int) + 1) * w + torIdx w ((x : Int) + 1)) 0)

theorem nbCount_eq_specNeighborCount (w h : Nat) (g : List Nat) (x y : Nat)
    (hx : x < w) (hy : y < h) :
    nbCount w h g x y = specNeighborCount w h g x y := by
  unfold nbCount specNeighborCount
  rw [torIdx_sub_one w x hx, torIdx_add_one w x hx, torIdx_self w x hx,
    torIdx_sub_one h y hy, torIdx_add_one h y hy, torIdx_self h y hy]

/-- Modelled from the claim wording: the per-cell successor rule — a live
cell survives on 2 or 3 live neighbors with its age incremented saturating
at 255, otherwise dies to age 0; a dead cell is born at age 1 on exactly 3
live neighbors, otherwise stays dead. -/
def specNextAge (age n : Nat) : Nat :=
  if 0 < age then (if n = 2 ∨ n = 3 then min 255 (age + 1) else 0)
  else (if n = 3 then 1 else 0)

theorem cellNextAge_eq_specNextAge (w h : Nat) (g : List Nat) (x y : Nat)
    (hx : x < w) (hy : y < h) :
    cellNextAge w h g x y =
      specNextAge (g.getD (y * w + x) 0) (specNeighborCount w h g x y) := by
  unfold cellNextAge cellNextAlive specNextAge
  rw [nbCount_eq_specNeighborCount w h g x y hx hy]
  rcases Nat.eq_zero_or_pos (g.getD (y * w + x) 0) with hz | hp
  · rw [hz]
    simp
  · have hne : ¬ g.getD (y * w + x) 0 = 0 := by omega
    simp only [List.getD_eq_getElem?_getD] at hp hne ⊢
    simp [hp, hne]

/-- On a due step, the grid, birth/death counters and appended history slot of
`update_game_of_life` are the step functions of the pre-step grid, whichever
classification branch is taken afterwards. -/
theorem update_due_components (cfg : GolConfig) (w h now : Nat) (s : GolState)
    (hnd : ¬ (now - s.game_last_update < cfg.update_interval_ms)) :
    (update_game_of_life cfg w h now s).1.game_grid = golStepGrid w h s.game_grid ∧
    (update_game_of_life cfg w h now s).1.game_births = golStepBirths w h s.game_grid ∧
    (update_game_of_life cfg w h now s).1.game_deaths = golStepDeaths w h s.game_grid ∧
    (update_game_of_life cfg w h now s).1.population_history =
      s.population_history.set s.history_idx (golStepPopulation w h s.game_grid) := by
  simp only [update_game_of_life, reset_game_of_life]
  rw [if_neg hnd]
  split_ifs <;> simp

theorem cellNextAlive_iff (w h : Nat) (g : List Nat) (x y : Nat)
    (hx : x < w) (hy : y < h) :
    cellNextAlive w h g x y = true ↔
      (if 0 < g.getD (y * w + x) 0
        then specNeighborCount w h g x y = 2 ∨ specNeighborCount w h g x y = 3
        else specNeighborCount w h g x y = 3) := by
  simp only [cellNextAlive]
  rw [nbCount_eq_specNeighborCount w h g x y hx hy]
  split_ifs <;> simp

/-- Claim C1: on a due step of `update_game_of_life`, every cell follows
Conway's rule with toroidal 8-neighbor counting over cells of age > 0 — a
live cell with 2 or 3 live neighbors survives with its age incremented
saturating at 255; any other live cell dies to age 0 and is counted as a
death; a dead cell with exactly 3 live neighbors is born at age 1 and is
counted as a birth; every other dead cell stays dead (age 0, not counted). -/
theorem gol_step_cell_rule (cfg : GolConfig) (w h now : Nat) (s : GolState) (x y : Nat)
    (hdue : cfg.update_interval_ms ≤ now - s.game_last_update)
    (hx : x < w) (hy : y < h) :
    (update_game_of_life cfg w h now s).1.game_grid.getD (y * w + x) 0 =
      specNextAge (s.game_grid.getD (y * w + x) 0)
        (specNeighborCount w h s.game_grid x y) ∧
    (update_game_of_life cfg w h now s).1.game_deaths =
      (List.range (h * w)).countP (fun i =>
        decide (0 < s.game_grid.getD i 0 ∧
          specNeighborCount w h s.game_grid (i % w) (i / w) ≠ 2 ∧
          specNeighborCount w h s.game_grid (i % w) (i / w) ≠ 3)) ∧
    (update_game_of_life cfg w h now s).1.game_births =
      (List.range (h * w)).countP (fun i =>
        decide (s.game_grid.getD i 0 = 0 ∧
          specNeighborCount w h s.game_grid (i % w) (i / w) = 3)) := by
  have hw : 0 < w := by omega
  have hnd : ¬ (now - s.game_last_update < cfg.update_interval_ms) := by omega
  obtain ⟨hg, hb, hd, -⟩ := update_due_components cfg w h now s hnd
  refine ⟨?_, ?_, ?_⟩
  · rw [hg]
    have hi : y * w + x < h * w := by
      have h1 : y * w + w ≤ h * w := by
        have h2 : y * w + w = (y + 1) * w := by ring
        rw [h2]
        exact Nat.mul_le_mul_right w (Nat.succ_le_of_lt hy)
      omega
    unfold golStepGrid
    rw [getD_map_range _ _ _ hi]
    have hm : (y * w + x) % w = x := by
      rw [Nat.mul_comm, Nat.mul_add_mod, Nat.mod_eq_of_lt hx]
    have hdv : (y * w + x) / w = y := by
      rw [Nat.mul_comm, Nat.mul_add_div hw, Nat.div_eq_of_lt hx]
      omega
    rw [hm, hdv]
    exact cellNextAge_eq_specNextAge w h s.game_grid x y hx hy
  · rw [hd]
    unfold golStepDeaths
    apply List.countP_congr
    intro i hi
    rw [List.mem_range] at hi
    have hxw : i % w < w := Nat.mod_lt i hw
    have hyh : i / w < h := (Nat.div_lt_iff_lt_mul hw).mpr hi
    have hidx : i / w * w + i % w = i := Nat.div_add_mod' i w
    have hiff := cellNextAlive_iff w h s.game_grid (i % w) (i / w) hxw hyh
    rw [hidx] at hiff
    simp only [decide_eq_true_eq]
    by_cases hpos : 0 < s.game_grid.getD i 0
    · rw [if_pos hpos] at hiff
      rw [hiff]
      constructor
      · rintro ⟨h1, h2⟩
        exact ⟨h1, by tauto, by tauto⟩
      · rintro ⟨h1, h2, h3⟩
        exact ⟨h1, by tauto⟩
    · constructor
      · rintro ⟨h1, -⟩
        exact absurd h1 hpos
      · rintro ⟨h1, -⟩
        exact absurd h1 hpos
  · rw [hb]
    unfold golStepBirths
    apply List.countP_congr
    intro i hi
    rw [List.mem_range] at hi
    have hxw : i % w < w := Nat.mod_lt i hw
    have hyh : i / w < h := (Nat.div_lt_iff_lt_mul hw).mpr hi
    have hidx : i / w * w + i % w = i := Nat.div_add_mod' i w
    have hiff := cellNextAlive_iff w h s.game_grid (i % w) (i / w) hxw hyh
    rw [hidx] at hiff
    simp only [decide_eq_true_eq]
    by_cases hz : s.game_grid.getD i 0 = 0
    · have hnp : ¬ 0 < s.game_grid.getD i 0 := by omega
      rw [if_neg hnp] at hiff
      rw [hiff]
    · constructor
      · rintro ⟨h1, -⟩
        exact absurd h1 hz
      · rintro ⟨h1, -⟩
        exact absurd h1 hz

/-- A concrete `GolState` with the header's default field values
(life_matrix.h:428-449), used by the concrete witnesses below. -/
def golState0 : GolState :=
  { game_grid := []
    game_grid_back := []
    game_initialized := false
    game_last_update := 0
    game_start_time := 0
    game_generation := 0
    game_last_max_age := 0
    population_history := List.replicate 30 0
    history_idx := 0
    history_filled := false
    game_births := 0
    game_deaths := 0
    game_stable_since := 0
    game_stable_paused_elapsed := 0
    game_is_stable := false
    game_demo_mode := false
    game_demo_start_time := 0
    game_reset_animation := false
    game_reset_animation_start := 0 }

/-- A concrete config (interval 0 so every step is due). -/
def cfg0 : GolConfig := ⟨0, true, true, 60000, false⟩

/-- A 3×3 grid holding a vertical blinker. -/
def sBlinker : GolState := { golState0 with game_grid := [0, 1, 0, 0, 1, 0, 0, 1, 0] }

/-- Witness for `gol_step_cell_rule` at the blinker's center cell. -/
theorem gol_step_cell_rule_witness :
    (cfg0.update_interval_ms ≤ 0 - sBlinker.game_last_update ∧ 1 < 3 ∧ 1 < 3) ∧
    ((update_game_of_life cfg0 3 3 0 sBlinker).1.game_grid.getD (1 * 3 + 1) 0 =
        specNextAge (sBlinker.game_grid.getD (1 * 3 + 1) 0)
          (specNeighborCount 3 3 sBlinker.game_grid 1 1) ∧
      (update_game_of_life cfg0 3 3 0 sBlinker).1.game_deaths =
        (List.range (3 * 3)).countP (fun i =>
          decide (0 < sBlinker.game_grid.getD i 0 ∧
            specNeighborCount 3 3 sBlinker.game_grid (i % 3) (i / 3) ≠ 2 ∧
            specNeighborCount 3 3 sBlinker.game_grid (i % 3) (i / 3) ≠ 3)) ∧
      (update_game_of_life cfg0 3 3 0 sBlinker).1.game_births =
        (List.range (3 * 3)).countP (fun i =>
          decide (sBlinker.game_grid.getD i 0 = 0 ∧
            specNeighborCount 3 3 sBlinker.game_grid (i % 3) (i / 3) = 3))) :=
  ⟨⟨by decide, by decide, by decide⟩,
    gol_step_cell_rule cfg0 3 3 0 sBlinker 1 1 (by decide) (by decide) (by decide)⟩

/-- Claim C2: `is_stable` returns true iff `history_filled_` is set (the ring
buffer wrapped at least once) and all 30 stored population samples are
numerically equal; in particular it is false whenever `history_filled_` is
still false. -/
theorem is_stable_iff_filled_and_flat (s : GolState) :
    is_stable s = true ↔
      (s.history_filled = true ∧
        ∀ i, i < 30 →
          s.population_history.getD i 0 = s.population_history.getD 0 0) := by
  unfold is_stable
  by_cases hf : s.history_filled = false
  · simp [hf]
  · have hf' : s.history_filled = true := by
      revert hf
      cases s.history_filled <;> simp
    rw [if_neg hf]
    simp only [List.all_eq_true, List.mem_range, beq_iff_eq, hf', true_and]
    constructor
    · intro hall i hi
      rcases Nat.eq_zero_or_pos i with rfl | hp
      · rfl
      · have h1 := hall (i - 1) (by omega)
        have h2 : i - 1 + 1 = i := by omega
        rw [h2] at h1
        exact h1
    · intro hall i hi
      exact hall (i + 1) (by omega)

/-- Claim C3: the telemetry export of (final generation, final population)
fires exactly on the rising edge into the stable state — a call of
`update_game_of_life` publishes iff the stable flag transitions from false
to true during that call; in particular no step taken while the flag is
already set re-publishes. -/
theorem publish_iff_stable_rising_edge (cfg : GolConfig) (w h now : Nat)
    (s : GolState) :
    (update_game_of_life cfg w h now s).2.isSome = true ↔
      (s.game_is_stable = false ∧
        (update_game_of_life cfg w h now s).1.game_is_stable = true) := by
  simp only [update_game_of_life, reset_game_of_life]
  split_ifs <;> simp_all

/-- Claim C4: a due step whose resulting population is 0 triggers
`reset_game_of_life` immediately during that same step — the stable flag and
both timers are cleared (no stability classification, no publish, no
countdown), the reset-animation and demo flags are set with their start
times, and the grid keeps the stepped (unreseeded) contents. -/
theorem extinction_resets_immediately (cfg : GolConfig) (w h now : Nat)
    (s : GolState)
    (hdue : cfg.update_interval_ms ≤ now - s.game_last_update)
    (hpop : golStepPopulation w h s.game_grid = 0) :
    (update_game_of_life cfg w h now s).1.game_reset_animation = true ∧
    (update_game_of_life cfg w h now s).1.game_reset_animation_start = now ∧
    (update_game_of_life cfg w h now s).1.game_demo_mode = true ∧
    (update_game_of_life cfg w h now s).1.game_demo_start_time = now ∧
    (update_game_of_life cfg w h now s).1.game_is_stable = false ∧
    (update_game_of_life cfg w h now s).1.game_stable_since = 0 ∧
    (update_game_of_life cfg w h now s).1.game_stable_paused_elapsed = 0 ∧
    (update_game_of_life cfg w h now s).1.game_grid = golStepGrid w h s.game_grid ∧
    (update_game_of_life cfg w h now s).2 = none := by
  have hnd : ¬ (now - s.game_last_update < cfg.update_interval_ms) := by omega
  simp only [update_game_of_life, reset_game_of_life]
  rw [if_neg hnd, if_pos hpop]
  simp

/-- A 1×1 grid with a live cell: its 8 toroidal neighbor references all hit
the cell itself, so it dies of overcrowding and the population drops to 0. -/
def sLone : GolState := { golState0 with game_grid := [1] }

/-- Witness for `extinction_resets_immediately` on the 1×1 live grid. -/
theorem extinction_resets_immediately_witness :
    (cfg0.update_interval_ms ≤ 5 - sLone.game_last_update ∧
      golStepPopulation 1 1 sLone.game_grid = 0) ∧
    ((update_game_of_life cfg0 1 1 5 sLone).1.game_reset_animation = true ∧
      (update_game_of_life cfg0 1 1 5 sLone).1.game_reset_animation_start = 5 ∧
      (update_game_of_life cfg0 1 1 5 sLone).1.game_demo_mode = true ∧
      (update_game_of_life cfg0 1 1 5 sLone).1.game_demo_start_time = 5 ∧
      (update_game_of_life cfg0 1 1 5 sLone).1.game_is_stable = false ∧
      (update_game_of_life cfg0 1 1 5 sLone).1.game_stable_since = 0 ∧
      (update_game_of_life cfg0 1 1 5 sLone).1.game_stable_paused_elapsed = 0 ∧
      (update_game_of_life cfg0 1 1 5 sLone).1.game_grid =
        golStepGrid 1 1 sLone.game_grid ∧
      (update_game_of_life cfg0 1 1 5 sLone).2 = none) :=
  ⟨⟨by decide, by decide⟩,
    extinction_resets_immediately cfg0 1 1 5 sLone (by decide) (by decide)⟩

/-- Claim C5: after `initialize_game_of_life` (any prior state, any pattern),
the generation counter is 0, the population history is 30 cleared slots with
index 0 and `history_filled_` false, the stable flag and both stability
timers are cleared, and the initialized flag is set — also on re-runs, since
none of these fields depend on the prior state. -/
theorem init_resets_counters (cfg : GolConfig) (rnd : Nat → Nat) (w h now : Nat)
    (pattern : PatternType) (s : GolState) :
    (init_game_of_life cfg rnd w h now pattern s).game_generation = 0 ∧
    (init_game_of_life cfg rnd w h now pattern s).population_history =
      List.replicate 30 0 ∧
    (init_game_of_life cfg rnd w h now pattern s).history_idx = 0 ∧
    (init_game_of_life cfg rnd w h now pattern s).history_filled = false ∧
    (init_game_of_life cfg rnd w h now pattern s).game_is_stable = false ∧
    (init_game_of_life cfg rnd w h now pattern s).game_stable_since = 0 ∧
    (init_game_of_life cfg rnd w h now pattern s).game_stable_paused_elapsed = 0 ∧
    (init_game_of_life cfg rnd w h now pattern s).game_initialized = true := by
  simp [init_game_of_life]

/-- Modelled from the claim wording (spec §4.1 MIXED seeding): starting from
an all-dead grid, place the fixed five-pattern catalogue — the R-pentomino at
(5,15), the Acorn at (10,50), the Diehard at (15,85) and Gliders at (3,10),
(20,30) and (8,100) — then add 10% random noise on top. -/
def specMixedCatalogue (rnd : Nat → Nat) (w h : Nat) : List Nat :=
  randomize_cells rnd 10 w h
    (place_pattern w h 8 100 PATTERN_GLIDER
      (place_pattern w h 20 30 PATTERN_GLIDER
        (place_pattern w h 3 10 PATTERN_GLIDER
          (place_pattern w h 15 85 PATTERN_DIEHARD
            (place_pattern w h 10 50 PATTERN_ACORN
              (place_pattern w h 5 15 PATTERN_R_PENTOMINO
                (List.replicate (w * h) 0)))))))

/-- A config with `complex_patterns` disabled. -/
def cfgPlain : GolConfig := ⟨200, false, true, 60000, false⟩

/-- A draw oracle whose every draw is 99, so `% 100 < density` never fires
for densities up to 99: the random-noise pass adds nothing. -/
def rnd99 : Nat → Nat := fun _ => 99

/-- Claim C6 counterexample: with `complex_patterns` disabled,
`initialize_game_of_life(PATTERN_MIXED)` falls through to the single-pattern
branch, whose `switch` has no MIXED case, so the grid stays all-dead instead
of receiving the five-pattern catalogue (on an 8×20 grid the two differ,
e.g. at cell (6,15) set by the R-pentomino). -/
theorem init_mixed_without_complex_differs :
    (init_game_of_life cfgPlain rnd99 8 20 0 PATTERN_MIXED golState0).game_grid ≠
      specMixedCatalogue rnd99 8 20 := by
  decide

/-- Claim C6 (amended): when `complex_patterns` is enabled, every call of
`initialize_game_of_life(PATTERN_MIXED)` clears the grid to all-dead and
seeds it with the fixed five-pattern catalogue (one R-pentomino, one Acorn,
one Diehard, three Gliders, each at its fixed offset) followed by 10% random
noise on top. -/
theorem init_mixed_seeds_catalogue (cfg : GolConfig) (rnd : Nat → Nat)
    (w h now : Nat) (s : GolState) (hc : cfg.complex_patterns = true) :
    (init_game_of_life cfg rnd w h now PATTERN_MIXED s).game_grid =
      specMixedCatalogue rnd w h := by
  simp [init_game_of_life, mixedSeed, specMixedCatalogue, hc]

/-- Witness for `init_mixed_seeds_catalogue` with the default config. -/
theorem init_mixed_seeds_catalogue_witness :
    cfg0.complex_patterns = true ∧
    (init_game_of_life cfg0 rnd99 8 20 0 PATTERN_MIXED golState0).game_grid =
      specMixedCatalogue rnd99 8 20 :=
  ⟨by decide, init_mixed_seeds_catalogue cfg0 rnd99 8 20 0 golState0 (by decide)⟩

/-- Claim C7 (amended): with the automaton stable since `t0 > 0` and the
countdown's elapsed portion at hide positive (`t0 < t1`), hiding the GoL
screen at `t1` captures the elapsed portion `t1 - t0` into
`game_stable_paused_elapsed_`, and revealing at `t2` restores
`game_stable_since_` to `t2 - (t1 - t0)`, so at any later time `t` the
elapsed countdown is the pre-hide portion plus the time since reveal — the
hidden span `t2 - t1` neither counts against the countdown nor resets it.
(The unamended claim fails when the screen is hidden in the same millisecond
the countdown started: see `countdown_hidden_at_start_counts`.) -/
theorem stability_countdown_pause_resume (s : GolState) (t0 t1 t2 t : Nat)
    (hstable : s.game_is_stable = true) (hsince : s.game_stable_since = t0)
    (h0 : 0 < t0) (h01 : t0 < t1) (h12 : t1 ≤ t2) (h2t : t2 ≤ t) :
    (visibility_update t1 false s true).1.game_stable_paused_elapsed = t1 - t0 ∧
    (visibility_update t2 true (visibility_update t1 false s true).1
        false).1.game_stable_since = t2 - (t1 - t0) ∧
    t - (visibility_update t2 true (visibility_update t1 false s true).1
        false).1.game_stable_since = (t1 - t0) + (t - t2) ∧
    t - (visibility_update t2 true (visibility_update t1 false s true).1
        false).1.game_stable_since = (t - (t2 - t1)) - t0 := by
  have hp : 0 < t1 - t0 := by omega
  refine ⟨?_, ?_, ?_, ?_⟩ <;>
    simp [visibility_update, hstable, hsince, h0, hp] <;> omega

/-- A stable state whose countdown began at 1000 ms. -/
def sStable : GolState :=
  { golState0 with game_is_stable := true, game_stable_since := 1000 }

/-- Claim C7 counterexample: hide at the instant the countdown starts
(t0 = t1 = 1000, elapsed portion 0). The capture stores 0, so the reveal
guard `game_stable_paused_elapsed_ > 0` does not fire, `game_stable_since_`
stays 1000, and at reveal time 6000 the elapsed countdown reads 5000 even
though the whole 5000 ms was spent hidden — hidden time counts against the
countdown, contradicting the claim for this run. -/
theorem countdown_hidden_at_start_counts :
    (visibility_update 6000 true (visibility_update 1000 false sStable true).1
        false).1.game_stable_since = 1000 ∧
    6000 - (visibility_update 6000 true
        (visibility_update 1000 false sStable true).1
        false).1.game_stable_since ≠ 0 := by
  decide

/-- Witness for `stability_countdown_pause_resume`: countdown starts at 1 s,
hidden at 11 s (10 s elapsed), revealed at 16 s, observed at 20 s. -/
theorem stability_countdown_pause_resume_witness :
    (sStable.game_is_stable = true ∧ sStable.game_stable_since = 1000 ∧
      0 < 1000 ∧ 1000 < 11000 ∧ 11000 ≤ 16000 ∧ 16000 ≤ 20000) ∧
    ((visibility_update 11000 false sStable true).1.game_stable_paused_elapsed =
        11000 - 1000 ∧
      (visibility_update 16000 true (visibility_update 11000 false sStable true).1
          false).1.game_stable_since = 16000 - (11000 - 1000) ∧
      20000 - (visibility_update 16000 true
          (visibility_update 11000 false sStable true).1
          false).1.game_stable_since = (11000 - 1000) + (20000 - 16000) ∧
      20000 - (visibility_update 16000 true
          (visibility_update 11000 false sStable true).1
          false).1.game_stable_since = (20000 - (16000 - 11000)) - 1000) :=
  ⟨⟨by decide, by decide, by decide, by decide, by decide, by decide⟩,
    stability_countdown_pause_resume sStable 1000 11000 16000 20000
      (by decide) (by decide) (by decide) (by decide) (by decide) (by decide)⟩

/-- Claim C8: `update_screen_cycle` advances the current screen index by one
position modulo the enabled-screen list exactly when the UI mode is
AUTO_CYCLE, the pause flag is off, the enabled list is non-empty, the dwell
time has elapsed since the last switch, and the GoL screen is not current
with its demo or reset-animation flag set; in every other case the index is
unchanged. -/
theorem update_screen_cycle_advance_iff (now : Nat) (d r : Bool) (ui : UiState) :
    (update_screen_cycle now d r ui).current_screen_idx =
      if ui.ui_mode = AUTO_CYCLE ∧ ui.ui_paused = false ∧
          ui.enabled_screen_ids ≠ [] ∧
          ui.screen_cycle_ms ≤ now - ui.last_switch_time ∧
          ¬ (get_current_screen_id ui = SCREEN_GAME_OF_LIFE ∧
            (d = true ∨ r = true))
      then (ui.current_screen_idx + 1) % (ui.enabled_screen_ids.length : Int)
      else ui.current_screen_idx := by
  unfold update_screen_cycle
  split_ifs <;> simp_all

/-- Claim C9: with an empty enabled-screen list, `get_current_screen_id`
returns the sentinel -1, and `next_screen`, `prev_screen` and
`set_current_screen` are complete no-ops on the UI state. -/
theorem empty_screen_list_sentinel_and_noops (now : Nat) (idx0 : Int)
    (ui : UiState) (hempty : ui.enabled_screen_ids = []) :
    get_current_screen_id ui = -1 ∧
    next_screen now ui = ui ∧
    prev_screen now ui = ui ∧
    set_current_screen now idx0 ui = ui := by
  simp [get_current_screen_id, next_screen, prev_screen, set_current_screen, hempty]

/-- A concrete UI state with no enabled screens. -/
def uiEmpty : UiState :=
  { ui_mode := AUTO_CYCLE
    ui_last_input_ms := 0
    ui_paused := false
    settings_cursor := 0
    enabled_screen_ids := []
    current_screen_idx := 0
    last_switch_time := 0
    screen_cycle_ms := 5000 }

/-- Witness for `empty_screen_list_sentinel_and_noops`. -/
theorem empty_screen_list_witness :
    uiEmpty.enabled_screen_ids = [] ∧
    (get_current_screen_id uiEmpty = -1 ∧
      next_screen 7 uiEmpty = uiEmpty ∧
      prev_screen 7 uiEmpty = uiEmpty ∧
      set_current_screen 7 3 uiEmpty = uiEmpty) :=
  ⟨rfl, empty_screen_list_sentinel_and_noops 7 3 uiEmpty rfl⟩

theorem cellNextAge_pos_iff (w h : Nat) (g : List Nat) (x y : Nat) :
    0 < cellNextAge w h g x y ↔ cellNextAlive w h g x y = true := by
  unfold cellNextAge
  split_ifs with h1 h2 <;> simp [h1]

theorem get_population_golStepGrid (w h : Nat) (g : List Nat) :
    get_population (golStepGrid w h g) = golStepPopulation w h g := by
  unfold get_population golStepGrid golStepPopulation
  rw [List.countP_map]
  apply List.countP_congr
  intro i hi
  simp only [Function.comp]
  simp [cellNextAge_pos_iff]

/-- Conservation per step: next population plus deaths equals previous live
count plus births (cell-by-cell case analysis). -/
theorem step_population_balance (w h : Nat) (g : List Nat) :
    golStepPopulation w h g + golStepDeaths w h g =
      (List.range (h * w)).countP (fun i => decide (0 < g.getD i 0)) +
        golStepBirths w h g := by
  unfold golStepPopulation golStepDeaths golStepBirths
  apply countP_add_countP_eq
  intro i
  rcases Nat.eq_zero_or_pos (g.getD i 0) with hz | hpos
  · have hz' : ¬ 0 < g.getD i 0 := by omega
    simp only [List.getD_eq_getElem?_getD] at hz hz'
    by_cases hn : cellNextAlive w h g (i % w) (i / w) = true <;> simp [hz, hz', hn]
  · have hz' : ¬ g.getD i 0 = 0 := by omega
    simp only [List.getD_eq_getElem?_getD] at hpos hz'
    by_cases hn : cellNextAlive w h g (i % w) (i / w) = true <;> simp [hpos, hz', hn]

theorem getD_set_self_of_lt (l : List Nat) (i a : Nat) (h : i < l.length) :
    (l.set i a).getD i 0 = a := by
  rw [List.getD_eq_getElem?_getD, List.getElem?_set_self]
  · rfl
  · exact h

/-- Claim C10: on a due step, the population value written into the history
ring buffer equals the live count before the step plus the births counted
that step minus the deaths counted that step, and it equals
`get_population` of the grid after the buffer swap. -/
theorem history_records_population (cfg : GolConfig) (w h now : Nat) (s : GolState)
    (hdue : cfg.update_interval_ms ≤ now - s.game_last_update)
    (hidx : s.history_idx < 30)
    (hlen : s.population_history.length = 30)
    (hg : s.game_grid.length = h * w) :
    ((update_game_of_life cfg w h now s).1.population_history.getD s.history_idx 0 : Int) =
      (get_population s.game_grid : Int) +
        ((update_game_of_life cfg w h now s).1.game_births : Int) -
        ((update_game_of_life cfg w h now s).1.game_deaths : Int) ∧
    (update_game_of_life cfg w h now s).1.population_history.getD s.history_idx 0 =
      get_population ((update_game_of_life cfg w h now s).1.game_grid) := by
  have hnd : ¬ (now - s.game_last_update < cfg.update_interval_ms) := by omega
  obtain ⟨hgr, hb, hd, hh⟩ := update_due_components cfg w h now s hnd
  have happ : (update_game_of_life cfg w h now s).1.population_history.getD
      s.history_idx 0 = golStepPopulation w h s.game_grid := by
    rw [hh]
    exact getD_set_self_of_lt _ _ _ (by omega)
  have hlive : get_population s.game_grid =
      (List.range (h * w)).countP (fun i => decide (0 < s.game_grid.getD i 0)) := by
    unfold get_population
    rw [countP_eq_range_countP, hg]
  have hbal := step_population_balance w h s.game_grid
  constructor
  · rw [happ, hb, hd, hlive]
    omega
  · rw [happ, hgr, get_population_golStepGrid]

/-- Witness for `history_records_population` on the 3×3 blinker. -/
theorem history_records_population_witness :
    (cfg0.update_interval_ms ≤ 0 - sBlinker.game_last_update ∧
      sBlinker.history_idx < 30 ∧ sBlinker.population_history.length = 30 ∧
      sBlinker.game_grid.length = 3 * 3) ∧
    (((update_game_of_life cfg0 3 3 0 sBlinker).1.population_history.getD
          sBlinker.history_idx 0 : Int) =
        (get_population sBlinker.game_grid : Int) +
          ((update_game_of_life cfg0 3 3 0 sBlinker).1.game_births : Int) -
          ((update_game_of_life cfg0 3 3 0 sBlinker).1.game_deaths : Int) ∧
      (update_game_of_life cfg0 3 3 0 sBlinker).1.population_history.getD
          sBlinker.history_idx 0 =
        get_population ((update_game_of_life cfg0 3 3 0 sBlinker).1.game_grid)) :=
  ⟨⟨by decide, by decide, by decide, by decide⟩,
    history_records_population cfg0 3 3 0 sBlinker (by decide) (by decide)
      (by decide) (by decide)⟩
